import Mathlib

/-!
Shallow embedding of the media-asset upload/delete coordination subsystem of
the politician-site backend (Express + Mongoose + Cloudinary controllers).

The embedding models:
  * the category resolver (`validateAndResolveCategory` in
    `src/controllers/pressController.ts`, duplicated inline for the video kind
    in `src/controllers/videoController.ts`),
  * the multer upload boundary (`src/config/multerConfig.ts`: press image
    filter, video/thumbnail filter, count limits),
  * the upload coordinators (`uploadMultiplePress`, `uploadVideo`),
  * the deletion coordinators (`deletePress`, `deleteVideo`, `deletePhoto`),
  * the read endpoints (`getPressById`, `getVideoById`, `getPhoto`).

External collaborators (MongoDB, Cloudinary) are modelled as explicit data:
the category store is a list of category documents with `findOne` as
`List.find?`; the object store's behaviour for a request is a list/function of
outcomes supplied as a parameter.  Remote calls made by a controller are
recorded in an explicit event trace so that "which external calls were issued,
and in what order" is provable.
-/

namespace PoliticianSite

/-- Content kinds, mirroring the `type` field of category documents
(`"photo" | "video" | "press"`). -/
inductive Kind where
  | photo
  | video
  | press
deriving DecidableEq

/-- The string stored in a category document's `type` field. -/
def Kind.typeName : Kind → String
  | .photo => "photo"
  | .video => "video"
  | .press => "press"

/-- A category document (`CategoryModel`): Mongo `_id`, display `name`, and
content-kind `type` tag. -/
structure Category where
  id : String
  name : String
  kind : Kind
deriving DecidableEq

/-- The category collection.  `findOne` is modelled as `List.find?`. -/
abbrev CategoryStore := List Category

/-- Whether mongoose can cast a string to an ObjectId (a 24-character hex
string, or any 12-character string).  `CategoryModel.findOne {_id: token}`
throws a cast error — caught by the resolver's try/catch — exactly when this
is false. -/
def isObjectIdCastable (s : String) : Bool :=
  s.length == 12 ||
    (s.length == 24 && s.toList.all (fun c =>
      c.isDigit || "abcdefABCDEF".toList.contains c))

/-- `CategoryModel.findOne({ _id: token, type: kind })` wrapped in the
resolver's try/catch: a non-castable token yields no document (the thrown cast
error is swallowed). -/
def findByIdAndType (st : CategoryStore) (tok : String) (k : Kind) :
    Option Category :=
  if isObjectIdCastable tok then
    st.find? (fun c => c.id == tok && c.kind == k)
  else none

/-- `CategoryModel.findOne({ name: token, type: kind })`. -/
def findByNameAndType (st : CategoryStore) (tok : String) (k : Kind) :
    Option Category :=
  st.find? (fun c => c.name == tok && c.kind == k)

/-- Error thrown by the resolver's initial guard
(`if (!category || typeof category !== "string")`). -/
def categoryRequiredMsg : String :=
  "Category is required and must be a string"

/-- The one generic error the resolver throws when no document was found —
`Invalid press category: ${category}. Please ensure the category exists and is
of type 'press'.` (and the analogous video wording in
`videoController.uploadVideo`). -/
def invalidCategoryMsg (k : Kind) (tok : String) : String :=
  "Invalid " ++ k.typeName ++ " category: " ++ tok ++
    ". Please ensure the category exists and is of type '" ++ k.typeName ++ "'."

/-- `validateAndResolveCategory` (pressController.ts lines 13–58; the video
upload path inlines the same algorithm with `type: "video"`, videoController.ts
lines 185–219).  Try `findOne` by `_id` scoped to the kind (cast failures
swallowed); if no document, fall back to `findOne` by `name` scoped to the
kind; the returned `categoryId` is the original token when found by id, and
`doc._id.toString()` when found by name.  In JavaScript the guard also rejects
non-string values; in this typed embedding the token is always a string, so
only the emptiness test of the guard is observable. -/
def validateAndResolveCategory (st : CategoryStore) (category : String)
    (k : Kind) : Except String (Category × String) :=
  if category = "" then .error categoryRequiredMsg
  else
    match findByIdAndType st category k with
    | some doc => .ok (doc, category)
    | none =>
      match findByNameAndType st category k with
      | some doc => .ok (doc, doc.id)
      | none => .error (invalidCategoryMsg k category)

/-- `findOne` as a state-passing database call: it returns the matching
document and leaves the collection unchanged (Mongo reads do not mutate). -/
def catDbFindOne (st : CategoryStore) (p : Category → Bool) :
    Option Category × CategoryStore :=
  (st.find? p, st)

/-- The resolver with the category collection threaded through every database
call it makes, so that read-onlyness is a statement about this function rather
than a typing convention.  Mirrors `validateAndResolveCategory` step by
step. -/
def validateAndResolveCategoryRun (st : CategoryStore) (category : String)
    (k : Kind) : Except String (Category × String) × CategoryStore :=
  if category = "" then (.error categoryRequiredMsg, st)
  else
    let byId :=
      if isObjectIdCastable category then
        catDbFindOne st (fun c => c.id == category && c.kind == k)
      else (none, st)
    match byId.1 with
    | some doc => (.ok (doc, category), byId.2)
    | none =>
      let byName := catDbFindOne byId.2 (fun c => c.name == category && c.kind == k)
      match byName.1 with
      | some doc => (.ok (doc, doc.id), byName.2)
      | none => (.error (invalidCategoryMsg k category), byName.2)

/-- The object store's reply to a successful upload call (the fields of the
Cloudinary result that the controllers read: `secure_url` and `public_id`). -/
structure CloudResult where
  secureUrl : String
  publicId : String
deriving DecidableEq, Inhabited

/-- The object store's behaviour for one request's image uploads: the outcome
of the i-th upload call, `some result` on success, `none` on failure (the
store's error value is abstracted).  Positions beyond the list fail. -/
abbrev CloudBehavior := List (Option CloudResult)

/-- One image entry of a press record (`pressImageSchema`). -/
structure PressImage where
  src : String
  alt : String
  cloudinaryPublicId : String
deriving DecidableEq

/-- A press document (`pressModel.ts`, multi-image variant).  Free-text fields
are carried through opaquely; `isActive` defaults to `true` as in the schema.
The `date` field and timestamps are not claim-relevant and are omitted. -/
structure PressRecord where
  id : String
  title : String
  source : String
  images : List PressImage
  category : String
  author : String
  readTime : String
  content : String
  isActive : Bool := true
deriving DecidableEq

/-- A video document (`VideoModel.ts`).  `thumbnailPublicId` is optional in
the schema. -/
structure VideoRecord where
  id : String
  title : String
  description : String
  thumbnail : String
  videoUrl : String
  date : String
  category : String
  duration : String
  publicId : String
  thumbnailPublicId : Option String
  isActive : Bool := true
deriving DecidableEq

/-- A photo document (`photoModel.ts`). -/
structure PhotoRecord where
  id : String
  src : String
  alt : String
  title : String
  category : String
  date : String
  location : String
  description : String
  tags : List String
  likes : Nat := 0
  views : Nat := 0
  cloudinaryPublicId : String
  isActive : Bool := true
deriving DecidableEq

/-- External calls a controller issues, in program order: object-store uploads
(press image by input index; the video file; the thumbnail file; the
thumbnail derivation from the uploaded video), object-store deletions by
remote reference (`cloudinary.uploader.destroy`), and content-record
persistence operations. -/
inductive Ev where
  | uploadImage (idx : Nat)
  | uploadVideoFile
  | uploadThumbnailFile
  | deriveThumbnail
  | destroy (publicId : String)
  | persistPress (r : PressRecord)
  | persistVideo (r : VideoRecord)
  | dbDeletePress (id : String)
  | dbDeleteVideo (id : String)
  | dbDeletePhoto (id : String)
deriving DecidableEq

/-- Is this event an object-store deletion call? -/
def Ev.isDestroy : Ev → Bool
  | .destroy _ => true
  | _ => false

/-- Is this event a persistence-layer create? -/
def Ev.isPersist : Ev → Bool
  | .persistPress _ => true
  | .persistVideo _ => true
  | _ => false

/-- Is this event an object-store upload call (of any flavour)? -/
def Ev.isUploadCall : Ev → Bool
  | .uploadImage _ => true
  | .uploadVideoFile => true
  | .uploadThumbnailFile => true
  | .deriveThumbnail => true
  | _ => false

instance {ε α : Type} [DecidableEq ε] [DecidableEq α] :
    DecidableEq (Except ε α) := fun a b =>
  match a, b with
  | .ok x, .ok y => decidable_of_iff (x = y) (by simp)
  | .error x, .error y => decidable_of_iff (x = y) (by simp)
  | .ok _, .error _ => isFalse (by simp)
  | .error _, .ok _ => isFalse (by simp)

/-- Is an `Except` value a success? -/
def isOkE {ε α : Type} : Except ε α → Bool
  | .ok _ => true
  | .error _ => false

/- ------------------------------------------------------------------ -/
/- Multer upload boundary (src/config/multerConfig.ts)                 -/
/- ------------------------------------------------------------------ -/

/-- A multipart file as multer sees it: its field name and declared media
type.  The byte buffer is irrelevant to every claim. -/
structure MFile where
  fieldname : String
  mimetype : String
deriving DecidableEq

/-- Structural character-list prefix test. -/
def charListPrefix : List Char → List Char → Bool
  | [], _ => true
  | _ :: _, [] => false
  | a :: as, b :: bs => a == b && charListPrefix as bs

/-- `String.startsWith`, via the structural list prefix test (so that runs on
concrete inputs evaluate inside proofs). -/
def strStartsWith (s pre : String) : Bool :=
  charListPrefix pre.toList s.toList

/-- `allowedImageTypes` of `pressImageFileFilter`, the thumbnail branch of
`videoFileFilter`, and the photo filter (identical lists). -/
def allowedImageTypes : List String :=
  ["image/jpeg", "image/jpg", "image/png", "image/webp", "image/gif",
   "image/bmp", "image/tiff"]

/-- `allowedVideoTypes` of `videoFileFilter`. -/
def allowedVideoTypes : List String :=
  ["video/mp4", "video/mov", "video/avi", "video/wmv", "video/flv",
   "video/webm", "video/mkv"]

/-- `pressImageFileFilter` (multerConfig): accept the declared type iff it is
an `image/*` type on the allow-list; the error messages abbreviate the
multi-line originals. -/
def pressImageFileFilter (mimetype : String) : Except String Unit :=
  if strStartsWith mimetype "image/" then
    if allowedImageTypes.contains mimetype then .ok ()
    else .error ("Image format " ++ mimetype ++ " not supported")
  else .error "Only image files are allowed for press articles"

/-- `videoFileFilter` (multerConfig): the `video` field must carry an allowed
`video/*` type, the `thumbnail` field an allowed `image/*` type, and any other
field name is rejected. -/
def videoFileFilter (f : MFile) : Except String Unit :=
  if f.fieldname == "video" then
    if strStartsWith f.mimetype "video/" then
      if allowedVideoTypes.contains f.mimetype then .ok ()
      else .error ("Video format " ++ f.mimetype ++ " not supported")
    else .error "Video file is required for video field"
  else if f.fieldname == "thumbnail" then
    if strStartsWith f.mimetype "image/" then
      if allowedImageTypes.contains f.mimetype then .ok ()
      else .error ("Image format " ++ f.mimetype ++ " not supported")
    else .error "Image file is required for thumbnail field"
  else .error "Unexpected field name"

/-- The press upload route boundary: `pressUploadConfig.array("images", 5)`.
`pressUploadConfig` sets `limits.files = 1`, and busboy's file-count limit
fires when a second file arrives, before the route-level `maxCount` of 5 is
ever reached — so any request with two or more files is rejected with
`LIMIT_FILE_COUNT`, and requests on a field other than `images` with
`LIMIT_UNEXPECTED_FILE`.  Files are processed in arrival order. -/
def pressMulterArray (files : List MFile) : Except String (List MFile) :=
  match files with
  | [] => .ok []
  | f :: rest =>
    if f.fieldname != "images" then .error "LIMIT_UNEXPECTED_FILE"
    else
      match pressImageFileFilter f.mimetype with
      | .error e => .error e
      | .ok _ =>
        match rest with
        | [] => .ok [f]
        | _ :: _ => .error "LIMIT_FILE_COUNT"

/-- The video upload route boundary:
`videoUploadConfig.fields([{video, maxCount 1}, {thumbnail, maxCount 1}])`
with `limits.files = 2`.  Multer rejects an unexpected or over-count field
with `LIMIT_UNEXPECTED_FILE` before invoking `videoFileFilter`; busboy's
total-file limit rejects a third file with `LIMIT_FILE_COUNT`.  `total`,
`nv`, `nt` count the files accepted so far (overall / on `video` / on
`thumbnail`). -/
def videoMulterGo (files : List MFile) (total nv nt : Nat) :
    Except String Unit :=
  match files with
  | [] => .ok ()
  | f :: rest =>
    if total ≥ 2 then .error "LIMIT_FILE_COUNT"
    else if f.fieldname == "video" then
      if nv ≥ 1 then .error "LIMIT_UNEXPECTED_FILE"
      else
        match videoFileFilter f with
        | .error e => .error e
        | .ok _ => videoMulterGo rest (total + 1) (nv + 1) nt
    else if f.fieldname == "thumbnail" then
      if nt ≥ 1 then .error "LIMIT_UNEXPECTED_FILE"
      else
        match videoFileFilter f with
        | .error e => .error e
        | .ok _ => videoMulterGo rest (total + 1) nv (nt + 1)
    else .error "LIMIT_UNEXPECTED_FILE"

/-- The full video multipart boundary: accept the file set or reject the
request. -/
def videoMulterFields (files : List MFile) : Except String (List MFile) :=
  match videoMulterGo files 0 0 0 with
  | .error e => .error e
  | .ok _ => .ok files

/- ------------------------------------------------------------------ -/
/- Asset upload coordinators                                           -/
/- ------------------------------------------------------------------ -/

/-- Outcome of the upload call for file index `i` under a given store
behaviour; calls beyond the described behaviour fail. -/
def uploadOutcome (cloud : CloudBehavior) (i : Nat) : Option CloudResult :=
  cloud.getD i none

/-- The first input index whose upload fails, if any.  `Promise.all` rejects
as soon as any of the `n` upload promises rejects; the surfaced error is one
failed upload's error, and no result is produced. -/
def firstUploadFailure (cloud : CloudBehavior) (n : Nat) : Option Nat :=
  (List.range n).find? (fun i => (uploadOutcome cloud i).isNone)

/-- The alt text assembled for image index `idx`
(pressController.ts line 120): `altTextsArray[index] || title - Image (i+1)`.
JavaScript `||` falls through both when the index is beyond the array
(`undefined`) and when the supplied entry is the empty string (both falsy). -/
def altTextAt (altTexts : List String) (title : String) (idx : Nat) : String :=
  if altTexts.getD idx "" = "" then
    title ++ " - Image " ++ toString (idx + 1)
  else altTexts.getD idx ""

/-- The `images` validator of `pressSchema`: between 1 and 5 images. -/
def pressImagesValid (images : List PressImage) : Bool :=
  images.length > 0 && images.length ≤ 5

/-- `PressModel.create`: mongoose runs the schema validators before
inserting.  Only the `images` bound validator is modelled; the remaining
field validators (URL shape, `readTime` format, category existence) constrain
fields no claim quantifies over and can only turn further successes into
errors. -/
def pressCreate (r : PressRecord) : Except String PressRecord :=
  if pressImagesValid r.images then .ok r
  else .error "Must have between 1 and 5 images"

/-- `uploadMultiplePress` (pressController.ts lines 65–158).  Reject an empty
file set; resolve the category (before any store call); start all `n` uploads
together (`files.map` + `Promise.all` — every upload call is issued); if any
upload fails, surface the store failure with no deletion of the uploads that
succeeded and no persistence call; otherwise assemble the image descriptors in
input order and create the press document.  `n` is the number of files that
reached the controller, `newId` the id the store assigns to the created
document, and `altTexts` the already-parsed alt-text array (the JSON parsing
of the request field is boundary plumbing). -/
def uploadMultiplePress (st : CategoryStore) (cloud : CloudBehavior) (n : Nat)
    (title source category author readTime content : String)
    (altTexts : List String) (newId : String) :
    Except String PressRecord × List Ev :=
  if n = 0 then (.error "No files uploaded", [])
  else
    match validateAndResolveCategory st category .press with
    | .error e => (.error e, [])
    | .ok (_, categoryId) =>
      let calls := (List.range n).map Ev.uploadImage
      match firstUploadFailure cloud n with
      | some _ => (.error "UploadFailed", calls)
      | none =>
        let images := (List.range n).filterMap (fun i =>
          (uploadOutcome cloud i).map (fun res =>
            { src := res.secureUrl
              alt := altTextAt altTexts title i
              cloudinaryPublicId := res.publicId }))
        match pressCreate
            { id := newId, title := title, source := source, images := images
              category := categoryId, author := author, readTime := readTime
              content := content } with
        | .error e => (.error e, calls)
        | .ok doc => (.ok doc, calls ++ [Ev.persistPress doc])

/-- `uploadVideo` (videoController.ts lines 137–306).  Checks, in program
order: files present; the `video` field present; all metadata fields
non-empty; category resolved (inline two-phase lookup, kind `video`).  Only
then: upload the video file; on success, upload the explicit thumbnail if one
was sent, else derive a thumbnail from the uploaded video via the store; on
success, create the video document.  A failure at any upload step surfaces
the store error with no deletion of blobs already stored and no persistence
call.  `videoOutcome` / `thumbOutcome` / `deriveOutcome` are the store's
replies to the three possible calls. -/
def uploadVideo (st : CategoryStore)
    (videoOutcome thumbOutcome deriveOutcome : Option CloudResult)
    (hasFiles hasVideoFile hasThumbFile : Bool)
    (title description category date duration : String) (newId : String) :
    Except String VideoRecord × List Ev :=
  if !hasFiles then (.error "No files uploaded", [])
  else if !hasVideoFile then (.error "Video file is required", [])
  else if title = "" || description = "" || category = "" || date = "" ||
      duration = "" then
    (.error "All required fields must be provided", [])
  else
    match validateAndResolveCategory st category .video with
    | .error e => (.error e, [])
    | .ok (_, categoryId) =>
      match videoOutcome with
      | none => (.error "UploadFailed", [Ev.uploadVideoFile])
      | some vres =>
        let thumbPhase : Option CloudResult × List Ev :=
          if hasThumbFile then
            (thumbOutcome, [Ev.uploadVideoFile, Ev.uploadThumbnailFile])
          else (deriveOutcome, [Ev.uploadVideoFile, Ev.deriveThumbnail])
        match thumbPhase.1 with
        | none => (.error "UploadFailed", thumbPhase.2)
        | some tres =>
          let doc : VideoRecord :=
            { id := newId, title := title, description := description
              thumbnail := tres.secureUrl, videoUrl := vres.secureUrl
              date := date, category := categoryId, duration := duration
              publicId := vres.publicId
              thumbnailPublicId := some tres.publicId }
          (.ok doc, thumbPhase.2 ++ [Ev.persistVideo doc])

/-- The press multi-image route end to end: the multer boundary
(`pressUploadConfig.array("images", 5)` + `handleMulterError`) followed by the
controller.  A boundary rejection produces a request with no external side
effect. -/
def pressUploadPipeline (st : CategoryStore) (cloud : CloudBehavior)
    (files : List MFile)
    (title source category author readTime content : String)
    (altTexts : List String) (newId : String) :
    Except String PressRecord × List Ev :=
  match pressMulterArray files with
  | .error e => (.error e, [])
  | .ok fs =>
    uploadMultiplePress st cloud fs.length title source category author
      readTime content altTexts newId

/-- The video upload route end to end: the multer boundary
(`videoUploadConfig.fields` + `handleMulterError`) followed by the
controller.  With `.fields`, multer always sets `req.files` (possibly empty),
so the controller's `!req.files` guard cannot fire through the route. -/
def videoUploadPipeline (st : CategoryStore)
    (videoOutcome thumbOutcome deriveOutcome : Option CloudResult)
    (files : List MFile)
    (title description category date duration : String) (newId : String) :
    Except String VideoRecord × List Ev :=
  match videoMulterFields files with
  | .error e => (.error e, [])
  | .ok fs =>
    uploadVideo st videoOutcome thumbOutcome deriveOutcome true
      (fs.any (fun f => f.fieldname == "video"))
      (fs.any (fun f => f.fieldname == "thumbnail"))
      title description category date duration newId

/- ------------------------------------------------------------------ -/
/- Asset deletion coordinators and read/update endpoints               -/
/- ------------------------------------------------------------------ -/

/-- The object store's behaviour for deletion calls in a request: whether
`cloudinary.uploader.destroy` succeeds for a given remote reference. -/
abbrev DestroyBehavior := String → Bool

/-- An HTTP error response: status code and message. -/
structure ErrResponse where
  status : Nat
  message : String
deriving DecidableEq

/-- `findById` on a press collection. -/
def pressFindById (db : List PressRecord) (id : String) : Option PressRecord :=
  db.find? (fun p => p.id == id)

/-- `findById` on a video collection. -/
def videoFindById (db : List VideoRecord) (id : String) : Option VideoRecord :=
  db.find? (fun v => v.id == id)

/-- `findById` on a photo collection. -/
def photoFindById (db : List PhotoRecord) (id : String) : Option PhotoRecord :=
  db.find? (fun p => p.id == id)

/-- `findByIdAndDelete` / the collection after removing a press document. -/
def pressDeleteById (db : List PressRecord) (id : String) : List PressRecord :=
  db.filter (fun p => p.id != id)

/-- The video collection after `findByIdAndDelete`. -/
def videoDeleteById (db : List VideoRecord) (id : String) : List VideoRecord :=
  db.filter (fun v => v.id != id)

/-- The photo collection after `findByIdAndDelete`. -/
def photoDeleteById (db : List PhotoRecord) (id : String) : List PhotoRecord :=
  db.filter (fun p => p.id != id)

/-- `deletePress` (pressController.ts lines 445–469).  Load the record (404 if
absent — `isActive` is not consulted); fire a `destroy` per image and await
them with `Promise.allSettled`, so every deletion is attempted and individual
outcomes are ignored; then always delete the database record and answer
success.  The result triple is (response, issued events, resulting
collection); `destroyOk` does not influence control flow — that is the
point. -/
def deletePress (db : List PressRecord) (_destroyOk : DestroyBehavior)
    (id : String) : Except ErrResponse Unit × List Ev × List PressRecord :=
  match pressFindById db id with
  | none => (.error ⟨404, "Press article not found"⟩, [], db)
  | some p =>
    let evs := p.images.map (fun im => Ev.destroy im.cloudinaryPublicId)
    (.ok (), evs ++ [Ev.dbDeletePress id], pressDeleteById db id)

/-- `deleteVideo` (videoController.ts lines 437–466).  Load the record (404 if
absent); `await destroy(publicId)` and then `await destroy(thumbnailPublicId)`
with no try/catch around either — a store failure rejects the awaited promise
and `asyncHandler` turns it into an error response before
`findByIdAndDelete` runs, leaving the record in place (the store's error
value is abstracted as `CloudinaryDestroyFailed`). -/
def deleteVideo (db : List VideoRecord) (destroyOk : DestroyBehavior)
    (id : String) : Except ErrResponse Unit × List Ev × List VideoRecord :=
  match videoFindById db id with
  | none => (.error ⟨404, "Video not found"⟩, [], db)
  | some v =>
    let step1 : List Ev := if v.publicId ≠ "" then [Ev.destroy v.publicId] else []
    if v.publicId ≠ "" && !destroyOk v.publicId then
      (.error ⟨500, "CloudinaryDestroyFailed"⟩, step1, db)
    else
      match v.thumbnailPublicId with
      | some tp =>
        if !destroyOk tp then
          (.error ⟨500, "CloudinaryDestroyFailed"⟩, step1 ++ [Ev.destroy tp], db)
        else
          (.ok (), step1 ++ [Ev.destroy tp, Ev.dbDeleteVideo id],
            videoDeleteById db id)
      | none =>
        (.ok (), step1 ++ [Ev.dbDeleteVideo id], videoDeleteById db id)

/-- `deletePhoto` (photoController.ts lines 295–328).  Load the record (404 if
absent); attempt the single `destroy` inside its own try/catch, so a store
failure is logged and deletion of the database record proceeds regardless;
answer success. -/
def deletePhoto (db : List PhotoRecord) (_destroyOk : DestroyBehavior)
    (id : String) : Except ErrResponse Unit × List Ev × List PhotoRecord :=
  match photoFindById db id with
  | none => (.error ⟨404, "Photo not found"⟩, [], db)
  | some p =>
    ( .ok (), [Ev.destroy p.cloudinaryPublicId, Ev.dbDeletePhoto id],
      photoDeleteById db id)

/-- `getPressById` (pressController.ts lines 322–339): an absent record and an
inactive record take the same branch (`!press || !press.isActive`) and get
the same 404 response. -/
def getPressById (db : List PressRecord) (id : String) :
    Except ErrResponse PressRecord :=
  match pressFindById db id with
  | none => .error ⟨404, "Press article not found"⟩
  | some p =>
    if !p.isActive then .error ⟨404, "Press article not found"⟩
    else .ok p

/-- `getVideoById` (videoController.ts lines 108–130): an absent record gets
404 "Video not found"; an existing inactive record gets 404 "Video not
available" — two distinct branches with distinct messages. -/
def getVideoById (db : List VideoRecord) (id : String) :
    Except ErrResponse VideoRecord :=
  match videoFindById db id with
  | none => .error ⟨404, "Video not found"⟩
  | some v =>
    if !v.isActive then .error ⟨404, "Video not available"⟩
    else .ok v

/-- The collection after a mongoose `save()` of a document: every entry with
the saved document's id is replaced by it (ids are unique in Mongo, so this is
the single-document write-back). -/
def saveById (db : List PhotoRecord) (p : PhotoRecord) : List PhotoRecord :=
  db.map (fun q => if q.id == p.id then p else q)

/-- `getPhoto` (photoController.ts lines 213–237).  Load by id; an absent or
inactive record gets 404 "Photo not found" (the catch-all reuses the same
message); otherwise increment `views` by one, save the document back, and
return it — the read endpoint writes. -/
def getPhoto (db : List PhotoRecord) (id : String) :
    Except ErrResponse PhotoRecord × List PhotoRecord :=
  match photoFindById db id with
  | none => (.error ⟨404, "Photo not found"⟩, db)
  | some p =>
    if !p.isActive then (.error ⟨404, "Photo not found"⟩, db)
    else
      let bumped := { p with views := p.views + 1 }
      (.ok bumped, saveById db bumped)

/-- The optional fields of a `PUT /api/press/:id` body that the embedding
tracks (the `date` field and request-body-missing guard are not
claim-relevant). -/
structure PressUpdateBody where
  title : Option String := none
  source : Option String := none
  images : Option (List PressImage) := none
  category : Option String := none
  author : Option String := none
  readTime : Option String := none
  content : Option String := none
  isActive : Option Bool := none
deriving DecidableEq

/-- Field application of `updatePress`: each provided field overwrites the
document (`if (x !== undefined) press.x = x`). -/
def applyPressUpdate (p : PressRecord) (b : PressUpdateBody)
    (categoryId : Option String) : PressRecord :=
  { p with
    title := b.title.getD p.title
    source := b.source.getD p.source
    images := b.images.getD p.images
    category := categoryId.getD p.category
    author := b.author.getD p.author
    readTime := b.readTime.getD p.readTime
    content := b.content.getD p.content
    isActive := b.isActive.getD p.isActive }

/-- The press collection after a `save()` of a press document. -/
def pressSaveById (db : List PressRecord) (p : PressRecord) :
    List PressRecord :=
  db.map (fun q => if q.id == p.id then p else q)

/-- `updatePress` (pressController.ts lines 385–438).  `findById` without any
`isActive` filter — inactive records are found and updated; if a category
token is supplied it goes through the same two-phase resolver (a resolution
failure surfaces with the handler's default 500 status); then the provided
fields are written and the document saved. -/
def updatePress (st : CategoryStore) (db : List PressRecord) (id : String)
    (b : PressUpdateBody) :
    Except ErrResponse PressRecord × List PressRecord :=
  match pressFindById db id with
  | none => (.error ⟨404, "Press article not found"⟩, db)
  | some p =>
    match b.category with
    | some tok =>
      match validateAndResolveCategory st tok .press with
      | .error e => (.error ⟨500, e⟩, db)
      | .ok (doc, _) =>
        let upd := applyPressUpdate p b (some doc.id)
        (.ok upd, pressSaveById db upd)
    | none =>
      let upd := applyPressUpdate p b none
      (.ok upd, pressSaveById db upd)

/-- The optional fields of a `PUT /api/videos/:id` body that the embedding
tracks (`tags` has no schema path and is dropped by mongoose). -/
structure VideoUpdateBody where
  title : Option String := none
  description : Option String := none
  thumbnail : Option String := none
  videoUrl : Option String := none
  date : Option String := none
  category : Option String := none
  duration : Option String := none
  isActive : Option Bool := none
deriving DecidableEq

/-- Field application of `findByIdAndUpdate(id, req.body)`. -/
def applyVideoUpdate (v : VideoRecord) (b : VideoUpdateBody) : VideoRecord :=
  { v with
    title := b.title.getD v.title
    description := b.description.getD v.description
    thumbnail := b.thumbnail.getD v.thumbnail
    videoUrl := b.videoUrl.getD v.videoUrl
    date := b.date.getD v.date
    category := b.category.getD v.category
    duration := b.duration.getD v.duration
    isActive := b.isActive.getD v.isActive }

/-- The video collection after `findByIdAndUpdate`. -/
def videoSaveById (db : List VideoRecord) (v : VideoRecord) :
    List VideoRecord :=
  db.map (fun q => if q.id == v.id then v else q)

/-- `updateVideo` (videoController.ts lines 381–430).  `findById` without any
`isActive` filter; a supplied category token is validated strictly by `_id`
only (no name fallback, no try/catch — a non-castable token's cast error
surfaces as a 500); then `findByIdAndUpdate` applies the body. -/
def updateVideo (st : CategoryStore) (db : List VideoRecord) (id : String)
    (b : VideoUpdateBody) :
    Except ErrResponse VideoRecord × List VideoRecord :=
  match videoFindById db id with
  | none => (.error ⟨404, "Video not found"⟩, db)
  | some v =>
    let proceed : Except ErrResponse VideoRecord × List VideoRecord :=
      let upd := applyVideoUpdate v b
      (.ok upd, videoSaveById db upd)
    match b.category with
    | some tok =>
      if !isObjectIdCastable tok then (.error ⟨500, "CastError"⟩, db)
      else
        match st.find? (fun c => c.id == tok && c.kind == Kind.video) with
        | none => (.error ⟨400, "Invalid video category"⟩, db)
        | some _ => proceed
    | none => proceed

/-- The optional fields of a `PUT /api/photos/:id` body. -/
structure PhotoUpdateBody where
  alt : Option String := none
  title : Option String := none
  category : Option String := none
  date : Option String := none
  location : Option String := none
  description : Option String := none
  tags : Option (List String) := none
  isActive : Option Bool := none
deriving DecidableEq

/-- Field application of `updatePhoto`. -/
def applyPhotoUpdate (p : PhotoRecord) (b : PhotoUpdateBody) : PhotoRecord :=
  { p with
    alt := b.alt.getD p.alt
    title := b.title.getD p.title
    category := b.category.getD p.category
    date := b.date.getD p.date
    location := b.location.getD p.location
    description := b.description.getD p.description
    tags := b.tags.getD p.tags
    isActive := b.isActive.getD p.isActive }

/-- `updatePhoto` (photoController.ts lines 244–288): `findById` without any
`isActive` filter, field application, `save()`. -/
def updatePhoto (db : List PhotoRecord) (id : String) (b : PhotoUpdateBody) :
    Except ErrResponse PhotoRecord × List PhotoRecord :=
  match photoFindById db id with
  | none => (.error ⟨404, "Photo not found"⟩, db)
  | some p =>
    let upd := applyPhotoUpdate p b
    (.ok upd, saveById db upd)

/- ------------------------------------------------------------------ -/
/- Concrete fixtures for witnesses and counterexamples                 -/
/- ------------------------------------------------------------------ -/

/-- A well-formed (castable) 24-hex ObjectId literal. -/
def hexA : String := "aaaaaaaaaaaaaaaaaaaaaaaa"

/-- A second well-formed ObjectId literal. -/
def hexB : String := "bbbbbbbbbbbbbbbbbbbbbbbb"

/-- A press category on the demo store. -/
def demoPressCategory : Category :=
  { id := hexA, name := "news", kind := .press }

/-- A video category on the demo store. -/
def demoVideoCategory : Category :=
  { id := hexB, name := "events", kind := .video }

/-- A demo category collection holding one press and one video category. -/
def demoStore : CategoryStore := [demoPressCategory, demoVideoCategory]

/-- A demo object-store reply. -/
def res1 : CloudResult :=
  { secureUrl := "https://cdn.example/img1.jpg", publicId := "pid1" }

/-- A second demo object-store reply. -/
def res2 : CloudResult :=
  { secureUrl := "https://cdn.example/img2.jpg", publicId := "pid2" }

/-- A demo video document. -/
def demoVideo : VideoRecord :=
  { id := "v1", title := "Rally", description := "d", thumbnail := "https://t"
    videoUrl := "https://v", date := "2024-01-01", category := hexB
    duration := "2:30", publicId := "vpub", thumbnailPublicId := some "tpub" }

/-- A demo inactive video document. -/
def demoInactiveVideo : VideoRecord :=
  { demoVideo with
    id := "v2"
    publicId := "vpub2"
    thumbnailPublicId := some "tpub2"
    isActive := false }

/-- A demo photo document. -/
def demoPhoto : PhotoRecord :=
  { id := "ph1", src := "https://p", alt := "a", title := "T"
    category := "politics", date := "2024-01-01", location := "x"
    description := "d", tags := [], views := 7, cloudinaryPublicId := "ppub" }

/-- A demo inactive photo document. -/
def demoInactivePhoto : PhotoRecord :=
  { demoPhoto with
    id := "ph2"
    cloudinaryPublicId := "ppub2"
    isActive := false }

/-- A demo press document with two images. -/
def demoPress : PressRecord :=
  { id := "pr1", title := "T", source := "S"
    images := [{ src := "https://i1", alt := "a1", cloudinaryPublicId := "q1" },
               { src := "https://i2", alt := "a2", cloudinaryPublicId := "q2" }]
    category := hexA, author := "A", readTime := "5 min", content := "C" }

/-- A demo inactive press document. -/
def demoInactivePress : PressRecord :=
  { demoPress with id := "pr2", isActive := false }

/-- The press record the coordinator persists for a one-file demo request
with no alt texts. -/
def demoCreatedPress : PressRecord :=
  { id := "p1", title := "T", source := "S"
    images := [{ src := res1.secureUrl, alt := "T - Image 1"
                 cloudinaryPublicId := res1.publicId }]
    category := hexA, author := "A", readTime := "5 min", content := "C" }

/-- A well-typed multipart file on the `images` field. -/
def demoImageFile : MFile := { fieldname := "images", mimetype := "image/png" }

/-- A well-typed multipart file on the `video` field. -/
def demoVideoFile : MFile := { fieldname := "video", mimetype := "video/mp4" }

/-- A well-typed multipart file on the `thumbnail` field. -/
def demoThumbFile : MFile :=
  { fieldname := "thumbnail", mimetype := "image/jpeg" }

/- ================================================================== -/
/- Theorems                                                            -/
/- ================================================================== -/

/-- A hit of the id-phase lookup matched the token as its `_id` and the
requested kind, and lies in the collection. -/
theorem find_by_id_spec (st : CategoryStore) (tok : String) (k : Kind)
    (c : Category) (h : findByIdAndType st tok k = some c) :
    c.id = tok ∧ c.kind = k ∧ c ∈ st := by
  unfold findByIdAndType at h
  split at h
  · have hp := List.find?_some h
    have hm := List.mem_of_find?_eq_some h
    simp only [Bool.and_eq_true, beq_iff_eq] at hp
    exact ⟨hp.1, hp.2, hm⟩
  · cases h

/-- A hit of the name-phase lookup matched the token as its `name` and the
requested kind, and lies in the collection. -/
theorem find_by_name_spec (st : CategoryStore) (tok : String) (k : Kind)
    (c : Category) (h : findByNameAndType st tok k = some c) :
    c.name = tok ∧ c.kind = k ∧ c ∈ st := by
  unfold findByNameAndType at h
  have hp := List.find?_some h
  have hm := List.mem_of_find?_eq_some h
  simp only [Bool.and_eq_true, beq_iff_eq] at hp
  exact ⟨hp.1, hp.2, hm⟩

/-- Claim C6 (confirmed): for every call of the resolver on a non-empty
token, the id-phase lookup restricted to the kind is attempted first (a hit
returns that category, with the token itself — which is its canonical id — as
the resolved id); on a miss (ill-formed identifier or no record) the
name-phase lookup restricted to the kind decides; the call fails exactly when
both phases miss, and any success returns the matched category's canonical
id, a category of the requested kind from the store. -/
theorem resolve_two_phase_characterization (st : CategoryStore) (tok : String)
    (k : Kind) (htok : tok ≠ "") :
    (∀ c, findByIdAndType st tok k = some c →
        validateAndResolveCategory st tok k = .ok (c, tok) ∧ tok = c.id) ∧
    (∀ c, findByIdAndType st tok k = none →
        findByNameAndType st tok k = some c →
        validateAndResolveCategory st tok k = .ok (c, c.id)) ∧
    (findByIdAndType st tok k = none → findByNameAndType st tok k = none →
        validateAndResolveCategory st tok k =
          .error (invalidCategoryMsg k tok)) ∧
    (∀ c cid, validateAndResolveCategory st tok k = .ok (c, cid) →
        cid = c.id ∧ c.kind = k ∧ c ∈ st) := by
  refine ⟨?_, ?_, ?_, ?_⟩
  · intro c hc
    have hspec := find_by_id_spec st tok k c hc
    unfold validateAndResolveCategory
    rw [if_neg htok, hc]
    exact ⟨rfl, hspec.1.symm⟩
  · intro c hid hname
    unfold validateAndResolveCategory
    rw [if_neg htok, hid, hname]
  · intro hid hname
    unfold validateAndResolveCategory
    rw [if_neg htok, hid, hname]
  · intro c cid hok
    unfold validateAndResolveCategory at hok
    rw [if_neg htok] at hok
    cases hid : findByIdAndType st tok k with
    | some d =>
      rw [hid] at hok
      simp only [Except.ok.injEq, Prod.mk.injEq] at hok
      obtain ⟨h1, h2⟩ := hok
      have hspec := find_by_id_spec st tok k d hid
      subst h1
      subst h2
      exact ⟨hspec.1.symm, hspec.2.1, hspec.2.2⟩
    | none =>
      rw [hid] at hok
      cases hname : findByNameAndType st tok k with
      | some d =>
        rw [hname] at hok
        simp only [Except.ok.injEq, Prod.mk.injEq] at hok
        obtain ⟨h1, h2⟩ := hok
        have hspec := find_by_name_spec st tok k d hname
        subst h1
        subst h2
        exact ⟨rfl, hspec.2.1, hspec.2.2⟩
      | none =>
        rw [hname] at hok
        cases hok

/-- Witness for C6: on the demo store, the display name `"news"` is not a
castable identifier, the id phase misses and the name phase resolves it to
the press category's canonical id. -/
theorem resolve_two_phase_characterization_witness :
    validateAndResolveCategory demoStore "news" Kind.press =
      .ok (demoPressCategory, hexA) := by
  have h := resolve_two_phase_characterization demoStore "news" Kind.press
    (by decide)
  exact h.2.1 demoPressCategory (by decide) (by decide)

/-- The state-passing resolver computes the pure resolver's answer and hands
the category collection back unchanged: it only ever issues `findOne`
reads. -/
theorem run_agrees (st : CategoryStore) (tok : String) (k : Kind) :
    validateAndResolveCategoryRun st tok k =
      (validateAndResolveCategory st tok k, st) := by
  unfold validateAndResolveCategoryRun validateAndResolveCategory
    catDbFindOne findByIdAndType findByNameAndType
  by_cases h : tok = ""
  · simp [h]
  · simp only [if_neg h]
    cases hc : isObjectIdCastable tok
    · simp only [Bool.false_eq_true, if_neg]
      cases h2 : st.find? (fun c => c.name == tok && c.kind == k) <;>
        simp [h2]
    · simp only [if_pos]
      cases h1 : st.find? (fun c => c.id == tok && c.kind == k) <;>
        cases h2 : st.find? (fun c => c.name == tok && c.kind == k) <;>
          simp [h1, h2]

/-- Claim C7 (confirmed): category resolution is read-only — the collection
it hands back is the one it was given — and idempotent: a second call with
the same token and kind against the resulting store returns the same
answer. -/
theorem resolve_idempotent_readonly (st : CategoryStore) (tok : String)
    (k : Kind) :
    (validateAndResolveCategoryRun st tok k).2 = st ∧
    (validateAndResolveCategoryRun
        (validateAndResolveCategoryRun st tok k).2 tok k).1 =
      (validateAndResolveCategoryRun st tok k).1 := by
  simp [run_agrees]

/-- Claim C3 counterexample: resolving the castable identifier `hexA` for the
press kind against a store whose only category has that very id but kind
`photo` produces exactly the same generic error value as resolving it against
a store with no categories at all — there is no distinct kind-mismatch
error. -/
theorem category_kind_mismatch_same_generic_error_cex :
    validateAndResolveCategory
        [{ id := hexA, name := "news", kind := Kind.photo }] hexA Kind.press =
      .error (invalidCategoryMsg Kind.press hexA) ∧
    validateAndResolveCategory [] hexA Kind.press =
      .error (invalidCategoryMsg Kind.press hexA) := by
  decide

/-- Claim C3 (corrected, amended): resolution with a well-formed identifier
that names an existing category of the wrong kind fails with the same single
generic invalid-category error that is produced when no category matches at
all; the code distinguishes the two situations by no distinct error. -/
theorem category_kind_mismatch_generic_error (st : CategoryStore)
    (tok : String) (k : Kind) (c : Category)
    (hcast : isObjectIdCastable tok = true)
    (hc : c ∈ st) (hid : c.id = tok) (hkind : c.kind ≠ k)
    (hnoId : findByIdAndType st tok k = none)
    (hnoName : findByNameAndType st tok k = none) :
    validateAndResolveCategory st tok k =
      .error (invalidCategoryMsg k tok) ∧
    validateAndResolveCategory [] tok k =
      .error (invalidCategoryMsg k tok) := by
  have htok : tok ≠ "" := by
    intro he
    rw [he] at hcast
    exact absurd hcast (by decide)
  constructor
  · unfold validateAndResolveCategory
    rw [if_neg htok, hnoId, hnoName]
  · unfold validateAndResolveCategory
    rw [if_neg htok]
    simp [findByIdAndType, findByNameAndType]

/-- Witness for the amended C3 at the concrete mismatching store. -/
theorem category_kind_mismatch_generic_error_witness :
    validateAndResolveCategory
        [{ id := hexA, name := "news", kind := Kind.photo }] hexA Kind.press =
      .error (invalidCategoryMsg Kind.press hexA) ∧
    validateAndResolveCategory [] hexA Kind.press =
      .error (invalidCategoryMsg Kind.press hexA) :=
  category_kind_mismatch_generic_error
    [{ id := hexA, name := "news", kind := Kind.photo }] hexA Kind.press
    { id := hexA, name := "news", kind := Kind.photo }
    (by decide) (by decide) (by decide) (by decide) (by decide) (by decide)

/-- `isOkE` is false exactly on errors. -/
theorem isOkE_eq_false_iff {ε α : Type} (x : Except ε α) :
    isOkE x = false ↔ ∃ e, x = .error e := by
  cases x <;> simp [isOkE]

/-- After filtering out every element keyed `id`, a lookup by `id` misses. -/
theorem find_after_filter_ne {α : Type} (l : List α) (f : α → String)
    (id : String) :
    (l.filter (fun x => f x != id)).find? (fun x => f x == id) = none := by
  rw [List.find?_eq_none]
  intro x hx
  have hne := (List.mem_filter.mp hx).2
  simp only [bne_iff_ne, ne_eq] at hne
  simp [hne]

/-- Claim C2 evaluated at its failing input (code_bug evidence): deleting an
existing video whose Cloudinary `destroy` call fails aborts with an error
before `findByIdAndDelete`, so the local record survives — while the press
and photo deletion coordinators, run against the same always-failing store,
still remove the local record and answer success. -/
theorem video_remote_delete_failure_blocks_db_delete :
    deleteVideo [demoVideo] (fun _ => false) "v1" =
      (.error ⟨500, "CloudinaryDestroyFailed"⟩, [Ev.destroy "vpub"],
        [demoVideo]) ∧
    videoFindById (deleteVideo [demoVideo] (fun _ => false) "v1").2.2 "v1" =
      some demoVideo ∧
    deletePress [demoPress] (fun _ => false) "pr1" =
      (.ok (), [Ev.destroy "q1", Ev.destroy "q2", Ev.dbDeletePress "pr1"],
        []) ∧
    deletePhoto [demoPhoto] (fun _ => false) "ph1" =
      (.ok (), [Ev.destroy "ppub", Ev.dbDeletePhoto "ph1"], []) := by
  decide

/-- Claim C9 counterexample: an existing-but-inactive video is answered with
404 "Video not available", while an absent one gets 404 "Video not found" —
two different error responses, so inactive videos are distinguishable from
absent ones at the public read interface. -/
theorem inactive_video_distinguishable_cex :
    getVideoById [demoInactiveVideo] "v2" =
      .error ⟨404, "Video not available"⟩ ∧
    getVideoById [] "v2" = .error ⟨404, "Video not found"⟩ ∧
    (ErrResponse.mk 404 "Video not available") ≠
      ⟨404, "Video not found"⟩ := by
  decide

/-- Claim C9 (corrected, amended): for photo and press, an inactive record
gets exactly the 404 response of an absent record; for video both cases are
404 but with different messages ("Video not available" for inactive versus
"Video not found" for absent), so they are distinguishable; update and delete
by id consult `findById` with no `isActive` filter and still find inactive
records (update succeeds, press/photo deletion succeeds and removes the
record, video deletion never answers the not-found error). -/
theorem inactive_records_visibility :
    (∀ db id p, pressFindById db id = some p → p.isActive = false →
        getPressById db id = .error ⟨404, "Press article not found"⟩) ∧
    (∀ db id, pressFindById db id = none →
        getPressById db id = .error ⟨404, "Press article not found"⟩) ∧
    (∀ db id p, photoFindById db id = some p → p.isActive = false →
        (getPhoto db id).1 = .error ⟨404, "Photo not found"⟩) ∧
    (∀ db id, photoFindById db id = none →
        (getPhoto db id).1 = .error ⟨404, "Photo not found"⟩) ∧
    (∀ db id v, videoFindById db id = some v → v.isActive = false →
        getVideoById db id = .error ⟨404, "Video not available"⟩) ∧
    (∀ db id, videoFindById db id = none →
        getVideoById db id = .error ⟨404, "Video not found"⟩) ∧
    (∀ st db id p b, pressFindById db id = some p →
        PressUpdateBody.category b = none →
        isOkE (updatePress st db id b).1 = true) ∧
    (∀ db id p b, photoFindById db id = some p →
        isOkE (updatePhoto db id b).1 = true) ∧
    (∀ st db id v b, videoFindById db id = some v →
        VideoUpdateBody.category b = none →
        isOkE (updateVideo st db id b).1 = true) ∧
    (∀ db bh id p, pressFindById db id = some p →
        (deletePress db bh id).1 = .ok () ∧
        pressFindById (deletePress db bh id).2.2 id = none) ∧
    (∀ db bh id p, photoFindById db id = some p →
        (deletePhoto db bh id).1 = .ok () ∧
        photoFindById (deletePhoto db bh id).2.2 id = none) ∧
    (∀ db bh id v, videoFindById db id = some v →
        (deleteVideo db bh id).1 ≠ .error ⟨404, "Video not found"⟩) := by
  refine ⟨?_, ?_, ?_, ?_, ?_, ?_, ?_, ?_, ?_, ?_, ?_, ?_⟩
  · intro db id p hp hact
    unfold getPressById
    simp [hp, hact]
  · intro db id hp
    unfold getPressById
    rw [hp]
  · intro db id p hp hact
    unfold getPhoto
    simp [hp, hact]
  · intro db id hp
    unfold getPhoto
    rw [hp]
  · intro db id v hv hact
    unfold getVideoById
    simp [hv, hact]
  · intro db id hv
    unfold getVideoById
    rw [hv]
  · intro st db id p b hp hb
    unfold updatePress
    rw [hp, hb]
    rfl
  · intro db id p b hp
    unfold updatePhoto
    rw [hp]
    rfl
  · intro st db id v b hv hb
    unfold updateVideo
    rw [hv, hb]
    rfl
  · intro db bh id p hp
    unfold deletePress
    rw [hp]
    refine ⟨rfl, ?_⟩
    unfold pressFindById pressDeleteById
    exact find_after_filter_ne db (fun p => p.id) id
  · intro db bh id p hp
    unfold deletePhoto
    rw [hp]
    refine ⟨rfl, ?_⟩
    unfold photoFindById photoDeleteById
    exact find_after_filter_ne db (fun p => p.id) id
  · intro db bh id v hv
    unfold deleteVideo
    simp only [hv]
    split
    · simp
    · split
      · split
        · simp
        · simp
      · simp

/-- Witness for the amended C9 at concrete collections holding one inactive
record of each kind. -/
theorem inactive_records_visibility_witness :
    getPressById [demoInactivePress] "pr2" =
      .error ⟨404, "Press article not found"⟩ ∧
    getPressById [] "pr2" = .error ⟨404, "Press article not found"⟩ ∧
    (getPhoto [demoInactivePhoto] "ph2").1 =
      .error ⟨404, "Photo not found"⟩ ∧
    getVideoById [demoInactiveVideo] "v2" =
      .error ⟨404, "Video not available"⟩ ∧
    isOkE (updatePress demoStore [demoInactivePress] "pr2" {}).1 = true ∧
    (deletePress [demoInactivePress] (fun _ => true) "pr2").1 = .ok () ∧
    (deleteVideo [demoInactiveVideo] (fun _ => true) "v2").1 ≠
      .error ⟨404, "Video not found"⟩ := by
  have h := inactive_records_visibility
  refine ⟨?_, ?_, ?_, ?_, ?_, ?_, ?_⟩
  · exact h.1 [demoInactivePress] "pr2" demoInactivePress (by decide) (by decide)
  · exact h.2.1 [] "pr2" (by decide)
  · exact h.2.2.1 [demoInactivePhoto] "ph2" demoInactivePhoto (by decide)
      (by decide)
  · exact h.2.2.2.2.1 [demoInactiveVideo] "v2" demoInactiveVideo (by decide)
      (by decide)
  · exact h.2.2.2.2.2.2.1 demoStore [demoInactivePress] "pr2"
      demoInactivePress {} (by decide) rfl
  · exact (h.2.2.2.2.2.2.2.2.2.1 [demoInactivePress] (fun _ => true) "pr2"
      demoInactivePress (by decide)).1
  · exact h.2.2.2.2.2.2.2.2.2.2.2 [demoInactiveVideo] (fun _ => true) "v2"
      demoInactiveVideo (by decide)

/-- In the collection written back by a photo `save()`, lookup by the saved
document's id returns the saved document, provided the id was present. -/
theorem find_saveById (db : List PhotoRecord) (q : PhotoRecord) (id : String)
    (hid : q.id = id) (hfound : (photoFindById db id).isSome = true) :
    photoFindById (saveById db q) id = some q := by
  induction db with
  | nil => simp [photoFindById] at hfound
  | cons x xs ih =>
    by_cases hx : (x.id == id) = true
    · unfold photoFindById saveById
      simp only [List.map_cons]
      have hq : (x.id == q.id) = true := by
        rw [hid]
        exact hx
      rw [if_pos hq]
      exact List.find?_cons_of_pos _ (by simp [hid])
    · unfold photoFindById saveById
      simp only [List.map_cons]
      have hq : (x.id == q.id) = false := by
        rw [hid]
        exact (Bool.not_eq_true _).mp hx
      rw [if_neg (by simp [hq] : ¬(x.id == q.id) = true)]
      rw [List.find?_cons_of_neg _ (by simp_all)]
      have hfound2 : (photoFindById xs id).isSome = true := by
        unfold photoFindById at hfound ⊢
        rw [List.find?_cons_of_neg _ (by simp_all)] at hfound
        exact hfound
      exact ih hfound2

/-- Claim C10 (confirmed): a successful photo get-by-id returns the record
with `views` bumped by one, writes exactly that record back (the store the
handler leaves behind is `saveById` of the bumped record), the bumped record
is what a subsequent lookup sees, every other field of the record is
unchanged, and every record with a different id survives untouched — the
read endpoint mutates the store. -/
theorem getPhoto_increments_views_only (db : List PhotoRecord) (id : String)
    (p : PhotoRecord) (hfind : photoFindById db id = some p)
    (hact : p.isActive = true) :
    (getPhoto db id).1 = .ok { p with views := p.views + 1 } ∧
    (getPhoto db id).2 = saveById db { p with views := p.views + 1 } ∧
    photoFindById (getPhoto db id).2 id =
      some { p with views := p.views + 1 } ∧
    ({ p with views := p.views + 1 }).views = p.views + 1 ∧
    ({ p with views := p.views + 1 }).id = p.id ∧
    ({ p with views := p.views + 1 }).src = p.src ∧
    ({ p with views := p.views + 1 }).alt = p.alt ∧
    ({ p with views := p.views + 1 }).title = p.title ∧
    ({ p with views := p.views + 1 }).category = p.category ∧
    ({ p with views := p.views + 1 }).date = p.date ∧
    ({ p with views := p.views + 1 }).location = p.location ∧
    ({ p with views := p.views + 1 }).description = p.description ∧
    ({ p with views := p.views + 1 }).tags = p.tags ∧
    ({ p with views := p.views + 1 }).likes = p.likes ∧
    ({ p with views := p.views + 1 }).cloudinaryPublicId =
      p.cloudinaryPublicId ∧
    ({ p with views := p.views + 1 }).isActive = p.isActive ∧
    (∀ q ∈ db, q.id ≠ p.id → q ∈ (getPhoto db id).2) := by
  have hpid : p.id = id := by
    have := List.find?_some hfind
    exact beq_iff_eq.mp this
  have hrun : getPhoto db id =
      (.ok { p with views := p.views + 1 },
        saveById db { p with views := p.views + 1 }) := by
    unfold getPhoto
    simp only [hfind]
    rw [hact]
    rfl
  refine ⟨by rw [hrun], by rw [hrun], ?_, rfl, rfl, rfl, rfl, rfl, rfl, rfl,
    rfl, rfl, rfl, rfl, rfl, rfl, ?_⟩
  · rw [hrun]
    exact find_saveById db { p with views := p.views + 1 } id hpid
      (by rw [hfind]; rfl)
  · intro q hq hqid
    rw [hrun]
    have hmem := List.mem_map_of_mem
      (fun r => if r.id == ({ p with views := p.views + 1 }).id
        then { p with views := p.views + 1 } else r) hq
    unfold saveById
    have : (q.id == ({ p with views := p.views + 1 }).id) = false := by
      simp only [ne_eq] at hqid
      simp [hqid]
    simp only [this] at hmem
    simpa using hmem

/-- Witness for C10: fetching the demo photo (7 views) returns it with 8
views and writes it back. -/
theorem getPhoto_increments_views_only_witness :
    (getPhoto [demoPhoto] "ph1").1 =
      .ok { demoPhoto with views := demoPhoto.views + 1 } ∧
    (getPhoto [demoPhoto] "ph1").2 =
      saveById [demoPhoto] { demoPhoto with views := demoPhoto.views + 1 } :=
  ⟨(getPhoto_increments_views_only [demoPhoto] "ph1" demoPhoto (by decide)
      (by decide)).1,
   (getPhoto_increments_views_only [demoPhoto] "ph1" demoPhoto (by decide)
      (by decide)).2.1⟩

/-- The press coordinator's event trace takes one of three shapes: nothing
(a validation/resolution failure), the bare upload calls (an upload or
persistence failure), or the upload calls followed by one persistence
event. -/
theorem uploadMultiplePress_events_shape (st : CategoryStore)
    (cloud : CloudBehavior) (n : Nat)
    (title source category author readTime content : String)
    (altTexts : List String) (newId : String) :
    (uploadMultiplePress st cloud n title source category author readTime
        content altTexts newId).2 = [] ∨
    (uploadMultiplePress st cloud n title source category author readTime
        content altTexts newId).2 = (List.range n).map Ev.uploadImage ∨
    (∃ doc, (uploadMultiplePress st cloud n title source category author
        readTime content altTexts newId).2 =
      (List.range n).map Ev.uploadImage ++ [Ev.persistPress doc]) := by
  unfold uploadMultiplePress
  split
  · left
    rfl
  · split
    · left
      rfl
    · split
      · right
        left
        rfl
      · dsimp only
        split
        · right
          left
          rfl
        · right
          right
          exact ⟨_, rfl⟩

/-- The press coordinator never issues an object-store deletion call. -/
theorem uploadMultiplePress_no_destroy (st : CategoryStore)
    (cloud : CloudBehavior) (n : Nat)
    (title source category author readTime content : String)
    (altTexts : List String) (newId : String) :
    ∀ e ∈ (uploadMultiplePress st cloud n title source category author
        readTime content altTexts newId).2, e.isDestroy = false := by
  intro e he
  rcases uploadMultiplePress_events_shape st cloud n title source category
      author readTime content altTexts newId with h | h | ⟨doc, h⟩
  · rw [h] at he
    cases he
  · rw [h] at he
    obtain ⟨i, _, rfl⟩ := List.mem_map.mp he
    rfl
  · rw [h] at he
    rcases List.mem_append.mp he with h2 | h2
    · obtain ⟨i, _, rfl⟩ := List.mem_map.mp h2
      rfl
    · rw [List.mem_singleton.mp h2]
      rfl

/-- When some upload of the request fails, the press coordinator answers an
error and its trace holds no persistence event. -/
theorem uploadMultiplePress_failure_shape (st : CategoryStore)
    (cloud : CloudBehavior) (n : Nat)
    (title source category author readTime content : String)
    (altTexts : List String) (newId : String)
    (hf : (firstUploadFailure cloud n).isSome = true) :
    isOkE (uploadMultiplePress st cloud n title source category author
        readTime content altTexts newId).1 = false ∧
    ((uploadMultiplePress st cloud n title source category author readTime
        content altTexts newId).2 = [] ∨
      (uploadMultiplePress st cloud n title source category author readTime
        content altTexts newId).2 = (List.range n).map Ev.uploadImage) := by
  obtain ⟨j, hj⟩ := Option.isSome_iff_exists.mp hf
  unfold uploadMultiplePress
  split
  · exact ⟨rfl, Or.inl rfl⟩
  · split
    · exact ⟨rfl, Or.inl rfl⟩
    · rw [hj]
      exact ⟨rfl, Or.inr rfl⟩

/-- The video coordinator never issues an object-store deletion call. -/
theorem uploadVideo_no_destroy (st : CategoryStore)
    (vo tho dvo : Option CloudResult) (hasFiles hasVideoFile hasThumbFile : Bool)
    (title description category date duration : String) (newId : String) :
    ∀ e ∈ (uploadVideo st vo tho dvo hasFiles hasVideoFile hasThumbFile
        title description category date duration newId).2,
      e.isDestroy = false := by
  unfold uploadVideo
  split
  · intro e he
    cases he
  · split
    · intro e he
      cases he
    · split
      · intro e he
        cases he
      · split
        · intro e he
          cases he
        · split
          · intro e he
            rw [List.mem_singleton.mp he]
            rfl
          · intro e he
            by_cases ht : hasThumbFile = true
            · simp only [ht, if_true] at he
              cases tho with
              | none =>
                simp at he
                rcases he with rfl | rfl <;> rfl
              | some tres2 =>
                simp at he
                rcases he with rfl | rfl | rfl <;> rfl
            · simp only [ht, if_false, Bool.false_eq_true] at he
              cases dvo with
              | none =>
                simp at he
                rcases he with rfl | rfl <;> rfl
              | some tres2 =>
                simp at he
                rcases he with rfl | rfl | rfl <;> rfl

/-- When the video upload fails, or the thumbnail-phase call that the request
shape demands fails, the video coordinator answers an error and its trace
holds no persistence event. -/
theorem uploadVideo_failure_shape (st : CategoryStore)
    (vo tho dvo : Option CloudResult) (hasFiles hasVideoFile hasThumbFile : Bool)
    (title description category date duration : String) (newId : String)
    (hfail : vo = none ∨ (hasThumbFile = true ∧ tho = none) ∨
      (hasThumbFile = false ∧ dvo = none)) :
    isOkE (uploadVideo st vo tho dvo hasFiles hasVideoFile hasThumbFile
        title description category date duration newId).1 = false ∧
    ∀ e ∈ (uploadVideo st vo tho dvo hasFiles hasVideoFile hasThumbFile
        title description category date duration newId).2,
      e.isPersist = false := by
  unfold uploadVideo
  split
  · exact ⟨rfl, fun e he => absurd he (List.not_mem_nil e)⟩
  · split
    · exact ⟨rfl, fun e he => absurd he (List.not_mem_nil e)⟩
    · split
      · exact ⟨rfl, fun e he => absurd he (List.not_mem_nil e)⟩
      · split
        · exact ⟨rfl, fun e he => absurd he (List.not_mem_nil e)⟩
        · split
          · refine ⟨rfl, fun e he => ?_⟩
            rw [List.mem_singleton.mp he]
            rfl
          · rcases hfail with h | ⟨h1, h2⟩ | ⟨h1, h2⟩
            · cases h
            · subst h1
              subst h2
              refine ⟨rfl, fun e he => ?_⟩
              simp at he
              rcases he with rfl | rfl <;> rfl
            · subst h1
              subst h2
              refine ⟨rfl, fun e he => ?_⟩
              simp at he
              rcases he with rfl | rfl <;> rfl

/-- Claim C1 counterexample: a press request with two files where upload 0
succeeds and upload 1 fails ends in `UploadFailed` with the trace holding the
two upload calls and nothing else — in particular no deletion call for the
stored blob `pid1`; likewise a video request with a good video blob and a
failing thumbnail blob ends in `UploadFailed` with no deletion of the stored
video blob.  The claim's required best-effort deletion call never happens. -/
theorem press_partial_upload_failure_no_cleanup_cex :
    uploadMultiplePress demoStore [some res1, none] 2 "T" "S" "news" "A"
        "5 min" "C" [] "p1" =
      (.error "UploadFailed", [Ev.uploadImage 0, Ev.uploadImage 1]) ∧
    uploadOutcome [some res1, none] 0 = some res1 ∧
    uploadOutcome [some res1, none] 1 = none ∧
    Ev.destroy res1.publicId ∉
      (uploadMultiplePress demoStore [some res1, none] 2 "T" "S" "news" "A"
        "5 min" "C" [] "p1").2 ∧
    uploadVideo demoStore (some res1) none none true true true "T" "D"
        "events" "2024-01-01" "2:30" "v9" =
      (.error "UploadFailed", [Ev.uploadVideoFile, Ev.uploadThumbnailFile]) ∧
    Ev.destroy res1.publicId ∉
      (uploadVideo demoStore (some res1) none none true true true "T" "D"
        "events" "2024-01-01" "2:30" "v9").2 := by
  decide

/-- Claim C1 (corrected, amended): when any blob upload of a create-with-
upload request fails, the coordinator does not call the persistence layer and
surfaces the upload failure, but it issues no deletion call for blobs that
were successfully stored in the request — in fact neither coordinator's trace
ever contains a deletion call, so surviving blobs are orphaned rather than
cleaned up. -/
theorem upload_failure_no_persist_and_no_compensation :
    (∀ st cloud n title source category author readTime content altTexts
        newId,
      (∀ e ∈ (uploadMultiplePress st cloud n title source category author
          readTime content altTexts newId).2, e.isDestroy = false) ∧
      ((firstUploadFailure cloud n).isSome = true →
        isOkE (uploadMultiplePress st cloud n title source category author
          readTime content altTexts newId).1 = false ∧
        ∀ e ∈ (uploadMultiplePress st cloud n title source category author
          readTime content altTexts newId).2, e.isPersist = false)) ∧
    (∀ st vo tho dvo hasFiles hasVideoFile hasThumbFile title description
        category date duration newId,
      (∀ e ∈ (uploadVideo st vo tho dvo hasFiles hasVideoFile hasThumbFile
          title description category date duration newId).2,
        e.isDestroy = false) ∧
      ((vo = none ∨ (hasThumbFile = true ∧ tho = none) ∨
          (hasThumbFile = false ∧ dvo = none)) →
        isOkE (uploadVideo st vo tho dvo hasFiles hasVideoFile hasThumbFile
          title description category date duration newId).1 = false ∧
        ∀ e ∈ (uploadVideo st vo tho dvo hasFiles hasVideoFile hasThumbFile
          title description category date duration newId).2,
          e.isPersist = false)) := by
  constructor
  · intro st cloud n title source category author readTime content altTexts
      newId
    refine ⟨uploadMultiplePress_no_destroy st cloud n title source category
      author readTime content altTexts newId, ?_⟩
    intro hf
    obtain ⟨hok, hshape⟩ := uploadMultiplePress_failure_shape st cloud n
      title source category author readTime content altTexts newId hf
    refine ⟨hok, ?_⟩
    intro e he
    rcases hshape with h | h
    · rw [h] at he
      cases he
    · rw [h] at he
      obtain ⟨i, _, rfl⟩ := List.mem_map.mp he
      rfl
  · intro st vo tho dvo hasFiles hasVideoFile hasThumbFile title description
      category date duration newId
    exact ⟨uploadVideo_no_destroy st vo tho dvo hasFiles hasVideoFile
        hasThumbFile title description category date duration newId,
      uploadVideo_failure_shape st vo tho dvo hasFiles hasVideoFile
        hasThumbFile title description category date duration newId⟩

/-- Witness for the amended C1: the press request with a succeeding and a
failing upload is answered with an error. -/
theorem upload_failure_no_persist_and_no_compensation_witness :
    isOkE (uploadMultiplePress demoStore [some res1, none] 2 "T" "S" "news"
      "A" "5 min" "C" [] "p1").1 = false :=
  ((upload_failure_no_persist_and_no_compensation.1 demoStore
    [some res1, none] 2 "T" "S" "news" "A" "5 min" "C" [] "p1").2
    (by decide)).1

/-- When every position of `l` yields a store reply, collecting the mapped
replies with `filterMap` is the plain in-order `map` of the forced replies. -/
theorem filterMap_eq_map_of_isSome {α β : Type} (f : Nat → Option α)
    (g : Nat → α → β) (d : α) (l : List Nat)
    (h : ∀ a ∈ l, (f a).isSome = true) :
    l.filterMap (fun a => (f a).map (g a)) =
      l.map (fun a => g a ((f a).getD d)) := by
  induction l with
  | nil => rfl
  | cons x xs ih =>
    have hx := h x (List.mem_cons_self x xs)
    cases hfx : f x with
    | none =>
      rw [hfx] at hx
      cases hx
    | some v =>
      simp only [List.filterMap_cons, List.map_cons, hfx, Option.map_some',
        Option.getD_some]
      rw [ih (fun a ha => h a (List.mem_cons_of_mem x ha))]

/-- Claim C4 counterexample: a press creation whose caller supplies the alt
text `""` for image 0 (the entry is present in `altTexts`) persists the
positional label `"T - Image 1"` instead of the supplied empty string —
JavaScript `||` treats the supplied empty string like a missing one. -/
theorem press_empty_alt_text_cex :
    (uploadMultiplePress demoStore [some res1] 1 "T" "S" "news" "A" "5 min"
        "C" [""] "p1").1 =
      .ok { id := "p1", title := "T", source := "S"
            images := [{ src := res1.secureUrl, alt := "T - Image 1"
                         cloudinaryPublicId := res1.publicId }]
            category := hexA, author := "A", readTime := "5 min"
            content := "C" } ∧
    ([""] : List String).get? 0 = some "" ∧
    "T - Image 1" ≠ "" := by
  decide

/-- Claim C4 (corrected, amended): when all `n` uploads of a press creation
succeed (1 ≤ n ≤ 5, category resolves), exactly one record is persisted and
its image sequence has exactly `n` entries in input order — entry `i` is
built from upload `i`'s reply; its alt text is `altTexts[i]` when that entry
exists and is non-empty, and the positional label `"<title> - Image <i+1>"`
otherwise (a supplied empty-string entry also gets the label). -/
theorem press_upload_success_preserves_order_and_count
    (st : CategoryStore) (cloud : CloudBehavior) (n : Nat)
    (title source category author readTime content : String)
    (altTexts : List String) (newId : String)
    (hn1 : 1 ≤ n) (hn5 : n ≤ 5)
    (hall : ∀ i, i < n → (uploadOutcome cloud i).isSome = true)
    (cdoc : Category) (cid : String)
    (hres : validateAndResolveCategory st category .press = .ok (cdoc, cid)) :
    ∃ doc : PressRecord,
      (uploadMultiplePress st cloud n title source category author readTime
          content altTexts newId).1 = .ok doc ∧
      (uploadMultiplePress st cloud n title source category author readTime
          content altTexts newId).2 =
        (List.range n).map Ev.uploadImage ++ [Ev.persistPress doc] ∧
      doc.images.length = n ∧
      (∀ i, i < n → doc.images.get? i = some
          { src := ((uploadOutcome cloud i).getD default).secureUrl
            alt := altTextAt altTexts title i
            cloudinaryPublicId :=
              ((uploadOutcome cloud i).getD default).publicId }) ∧
      (∀ i, i < n → altTexts.getD i "" ≠ "" →
        (doc.images.get? i).map PressImage.alt =
          some (altTexts.getD i "")) ∧
      (∀ i, i < n → altTexts.getD i "" = "" →
        (doc.images.get? i).map PressImage.alt =
          some (title ++ " - Image " ++ toString (i + 1))) := by
  have hne : ¬ n = 0 := by omega
  have hnofail : firstUploadFailure cloud n = none := by
    unfold firstUploadFailure
    rw [List.find?_eq_none]
    intro i hi
    have hs := hall i (List.mem_range.mp hi)
    intro hcontra
    rw [Option.isNone_iff_eq_none] at hcontra
    rw [hcontra] at hs
    cases hs
  have hfm : (List.range n).filterMap (fun i =>
      (uploadOutcome cloud i).map (fun res =>
        ({ src := res.secureUrl
           alt := altTextAt altTexts title i
           cloudinaryPublicId := res.publicId } : PressImage))) =
      (List.range n).map (fun i =>
        ({ src := ((uploadOutcome cloud i).getD default).secureUrl
           alt := altTextAt altTexts title i
           cloudinaryPublicId :=
             ((uploadOutcome cloud i).getD default).publicId } : PressImage)) :=
    filterMap_eq_map_of_isSome (fun i => uploadOutcome cloud i)
      (fun i res =>
        ({ src := res.secureUrl
           alt := altTextAt altTexts title i
           cloudinaryPublicId := res.publicId } : PressImage))
      default (List.range n)
      (fun a ha => hall a (List.mem_range.mp ha))
  have hlen : ((List.range n).map (fun i =>
      ({ src := ((uploadOutcome cloud i).getD default).secureUrl
         alt := altTextAt altTexts title i
         cloudinaryPublicId :=
           ((uploadOutcome cloud i).getD default).publicId } : PressImage))).length
      = n := by
    rw [List.length_map, List.length_range]
  have hvalid : pressImagesValid ((List.range n).map (fun i =>
      ({ src := ((uploadOutcome cloud i).getD default).secureUrl
         alt := altTextAt altTexts title i
         cloudinaryPublicId :=
           ((uploadOutcome cloud i).getD default).publicId } : PressImage)))
      = true := by
    unfold pressImagesValid
    rw [hlen]
    simp only [Bool.and_eq_true, decide_eq_true_eq]
    omega
  have hrun : uploadMultiplePress st cloud n title source category author
      readTime content altTexts newId =
      (.ok { id := newId, title := title, source := source
             images := (List.range n).map (fun i =>
               ({ src := ((uploadOutcome cloud i).getD default).secureUrl
                  alt := altTextAt altTexts title i
                  cloudinaryPublicId :=
                    ((uploadOutcome cloud i).getD default).publicId } :
                 PressImage))
             category := cid, author := author, readTime := readTime
             content := content },
        (List.range n).map Ev.uploadImage ++
          [Ev.persistPress
            { id := newId, title := title, source := source
              images := (List.range n).map (fun i =>
                ({ src := ((uploadOutcome cloud i).getD default).secureUrl
                   alt := altTextAt altTexts title i
                   cloudinaryPublicId :=
                     ((uploadOutcome cloud i).getD default).publicId } :
                  PressImage))
              category := cid, author := author, readTime := readTime
              content := content }]) := by
    unfold uploadMultiplePress
    rw [if_neg hne, hres]
    dsimp only
    rw [hnofail]
    dsimp only
    rw [hfm]
    unfold pressCreate
    dsimp only
    rw [if_pos hvalid]
  refine ⟨_, by rw [hrun], by rw [hrun], hlen, ?_, ?_, ?_⟩
  · intro i hi
    dsimp only
    rw [List.get?_map, List.get?_range hi]
    rfl
  · intro i hi halt
    dsimp only
    rw [List.get?_map, List.get?_range hi]
    simp only [Option.map_some']
    unfold altTextAt
    rw [if_neg halt]
  · intro i hi halt
    dsimp only
    rw [List.get?_map, List.get?_range hi]
    simp only [Option.map_some']
    unfold altTextAt
    rw [if_pos halt]

/-- Witness for the amended C4: two succeeding uploads with one supplied alt
text produce a successfully persisted record. -/
theorem press_upload_success_preserves_order_and_count_witness :
    isOkE (uploadMultiplePress demoStore [some res1, some res2] 2 "T" "S"
      "news" "A" "5 min" "C" ["x"] "p1").1 = true := by
  obtain ⟨doc, h1, _⟩ := press_upload_success_preserves_order_and_count
    demoStore [some res1, some res2] 2 "T" "S" "news" "A" "5 min" "C" ["x"]
    "p1" (by decide) (by decide)
    (fun i hi => by interval_cases i <;> decide)
    demoPressCategory hexA (by decide)
  rw [h1]
  rfl

/-- The press boundary only accepts the file list it was given. -/
theorem pressMulterArray_ok_shape (files fs : List MFile)
    (h : pressMulterArray files = .ok fs) :
    fs = files ∧ files.length ≤ 1 := by
  cases files with
  | nil =>
    injection h with h2
    exact ⟨h2.symm, by simp⟩
  | cons f rest =>
    simp only [pressMulterArray] at h
    split at h
    · cases h
    · split at h
      · cases h
      · split at h
        · injection h with h2
          exact ⟨h2.symm, by simp⟩
        · cases h

/-- The video boundary only accepts the file list it was given. -/
theorem videoMulterFields_ok_shape (files fs : List MFile)
    (h : videoMulterFields files = .ok fs) : fs = files := by
  unfold videoMulterFields at h
  split at h
  · cases h
  · injection h with h2
    exact h2.symm

/-- A press request that fails its in-controller checks (empty file set or
category resolution) terminates with an error and an empty trace. -/
theorem uploadMultiplePress_precheck_fail (st : CategoryStore)
    (cloud : CloudBehavior) (n : Nat)
    (title source category author readTime content : String)
    (altTexts : List String) (newId : String)
    (h : n = 0 ∨
      isOkE (validateAndResolveCategory st category .press) = false) :
    (uploadMultiplePress st cloud n title source category author readTime
      content altTexts newId).2 = [] ∧
    isOkE (uploadMultiplePress st cloud n title source category author
      readTime content altTexts newId).1 = false := by
  unfold uploadMultiplePress
  split
  · exact ⟨rfl, rfl⟩
  · rcases h with h | h
    · rename_i hn
      exact absurd h hn
    · obtain ⟨e, herr⟩ := (isOkE_eq_false_iff _).mp h
      rw [herr]
      exact ⟨rfl, rfl⟩

/-- A video request that fails its in-controller checks (missing video field,
empty metadata field, or category resolution) terminates with an error and an
empty trace. -/
theorem uploadVideo_precheck_fail (st : CategoryStore)
    (vo tho dvo : Option CloudResult)
    (hasFiles hasVideoFile hasThumbFile : Bool)
    (title description category date duration : String) (newId : String)
    (h : hasVideoFile = false ∨ title = "" ∨ description = "" ∨
      category = "" ∨ date = "" ∨ duration = "" ∨
      isOkE (validateAndResolveCategory st category .video) = false) :
    (uploadVideo st vo tho dvo hasFiles hasVideoFile hasThumbFile title
      description category date duration newId).2 = [] ∧
    isOkE (uploadVideo st vo tho dvo hasFiles hasVideoFile hasThumbFile
      title description category date duration newId).1 = false := by
  unfold uploadVideo
  split
  · exact ⟨rfl, rfl⟩
  · split
    · exact ⟨rfl, rfl⟩
    · split
      · exact ⟨rfl, rfl⟩
      · rename_i hnv hmeta
        rcases h with h | h | h | h | h | h | h
        · rw [h] at hnv
          simp at hnv
        · exact absurd (by rw [h]; simp) hmeta
        · exact absurd (by rw [h]; simp) hmeta
        · exact absurd (by rw [h]; simp) hmeta
        · exact absurd (by rw [h]; simp) hmeta
        · exact absurd (by rw [h]; simp) hmeta
        · obtain ⟨e, herr⟩ := (isOkE_eq_false_iff _).mp h
          rw [herr]
          exact ⟨rfl, rfl⟩

/-- Claim C5 (confirmed): through either upload route, a request that fails
the multipart boundary (file-set or media-type validation), arrives with no
usable file, has an empty required metadata field, or fails category
resolution, terminates with an error and an empty external trace — no
object-store upload is issued and nothing is persisted; equivalently no store
call ever precedes the success of all these checks. -/
theorem no_upload_before_validation :
    (∀ st cloud files title source category author readTime content altTexts
        newId,
      (isOkE (pressMulterArray files) = false ∨ files = [] ∨
        isOkE (validateAndResolveCategory st category .press) = false) →
      (pressUploadPipeline st cloud files title source category author
        readTime content altTexts newId).2 = [] ∧
      isOkE (pressUploadPipeline st cloud files title source category author
        readTime content altTexts newId).1 = false) ∧
    (∀ st vo tho dvo files title description category date duration newId,
      (isOkE (videoMulterFields files) = false ∨
        files.any (fun f => f.fieldname == "video") = false ∨
        title = "" ∨ description = "" ∨ category = "" ∨ date = "" ∨
        duration = "" ∨
        isOkE (validateAndResolveCategory st category .video) = false) →
      (videoUploadPipeline st vo tho dvo files title description category
        date duration newId).2 = [] ∧
      isOkE (videoUploadPipeline st vo tho dvo files title description
        category date duration newId).1 = false) := by
  constructor
  · intro st cloud files title source category author readTime content
      altTexts newId hbad
    unfold pressUploadPipeline
    cases hm : pressMulterArray files with
    | error e => exact ⟨rfl, rfl⟩
    | ok fs =>
      obtain ⟨rfl, -⟩ := pressMulterArray_ok_shape files fs hm
      rcases hbad with h | h | h
      · rw [hm] at h
        simp [isOkE] at h
      · subst h
        exact uploadMultiplePress_precheck_fail st cloud _ title source
          category author readTime content altTexts newId (Or.inl rfl)
      · exact uploadMultiplePress_precheck_fail st cloud _ title source
          category author readTime content altTexts newId (Or.inr h)
  · intro st vo tho dvo files title description category date duration newId
      hbad
    unfold videoUploadPipeline
    cases hm : videoMulterFields files with
    | error e => exact ⟨rfl, rfl⟩
    | ok fs =>
      have hfs := videoMulterFields_ok_shape files fs hm
      subst hfs
      rcases hbad with h | h
      · rw [hm] at h
        simp [isOkE] at h
      · exact uploadVideo_precheck_fail st vo tho dvo true _ _ title
          description category date duration newId (by tauto)

/-- Witness for C5: a press request whose single file declares a non-image
media type is stopped at the boundary with an empty trace. -/
theorem no_upload_before_validation_witness :
    (pressUploadPipeline demoStore [some res1]
        [{ fieldname := "images", mimetype := "text/plain" }] "T" "S" "news"
        "A" "5 min" "C" [] "p1").2 = [] ∧
    isOkE (pressUploadPipeline demoStore [some res1]
        [{ fieldname := "images", mimetype := "text/plain" }] "T" "S" "news"
        "A" "5 min" "C" [] "p1").1 = false :=
  no_upload_before_validation.1 demoStore [some res1]
    [{ fieldname := "images", mimetype := "text/plain" }] "T" "S" "news" "A"
    "5 min" "C" [] "p1" (Or.inl (by decide))

/-- The persistence gate bounds every created press record's image count. -/
theorem pressCreate_images_bound (r doc : PressRecord)
    (h : pressCreate r = .ok doc) :
    1 ≤ doc.images.length ∧ doc.images.length ≤ 5 := by
  unfold pressCreate at h
  split at h
  · rename_i hvalid
    injection h with h2
    subst h2
    unfold pressImagesValid at hvalid
    simp only [Bool.and_eq_true, decide_eq_true_eq] at hvalid
    omega
  · cases h

/-- Any press record carried by a persistence event of the press coordinator
has between 1 and 5 images. -/
theorem uploadMultiplePress_persist_bound (st : CategoryStore)
    (cloud : CloudBehavior) (n : Nat)
    (title source category author readTime content : String)
    (altTexts : List String) (newId : String) (doc : PressRecord)
    (h : Ev.persistPress doc ∈ (uploadMultiplePress st cloud n title source
      category author readTime content altTexts newId).2) :
    1 ≤ doc.images.length ∧ doc.images.length ≤ 5 := by
  unfold uploadMultiplePress at h
  split at h
  · cases h
  · split at h
    · cases h
    · dsimp only at h
      split at h
      · obtain ⟨i, _, hi⟩ := List.mem_map.mp h
        cases hi
      · split at h
        · obtain ⟨i, _, hi⟩ := List.mem_map.mp h
          cases hi
        · rename_i doc2 hcreate
          rcases List.mem_append.mp h with h2 | h2
          · obtain ⟨i, _, hi⟩ := List.mem_map.mp h2
            cases hi
          · have heq := List.mem_singleton.mp h2
            injection heq with h3
            subst h3
            exact pressCreate_images_bound _ _ hcreate

/-- A file set the video boundary accepts only carries the declared
`video` and `thumbnail` fields. -/
theorem videoMulterGo_ok_fields (files : List MFile) :
    ∀ total nv nt, videoMulterGo files total nv nt = .ok () →
      ∀ f ∈ files, f.fieldname = "video" ∨ f.fieldname = "thumbnail" := by
  induction files with
  | nil =>
    intro total nv nt h f hf
    cases hf
  | cons x xs ih =>
    intro total nv nt h f hf
    simp only [videoMulterGo] at h
    split at h
    · cases h
    · split at h
      · rename_i hvid
        split at h
        · cases h
        · split at h
          · cases h
          · rcases List.mem_cons.mp hf with heq | hmem
            · subst heq
              exact Or.inl (beq_iff_eq.mp hvid)
            · exact ih _ _ _ h f hmem
      · split at h
        · rename_i hnv hth
          split at h
          · cases h
          · split at h
            · cases h
            · rcases List.mem_cons.mp hf with heq | hmem
              · subst heq
                exact Or.inr (beq_iff_eq.mp hth)
              · exact ih _ _ _ h f hmem
        · cases h

/-- Claim C8 (confirmed): the per-kind blob-count policy holds — a press
multi-image request with zero files is rejected by the controller, more than
five press images never pass the upload boundary, the persistence gate admits
only press records with 1–5 images (so every record a coordinator persists is
in bounds), a video request whose `video` field is missing is rejected before
any store call, and a file on an unexpected field name never passes the video
boundary. -/
theorem blob_count_policy_enforced :
    (∀ st cloud title source category author readTime content altTexts newId,
      uploadMultiplePress st cloud 0 title source category author readTime
        content altTexts newId = (.error "No files uploaded", [])) ∧
    (∀ files : List MFile, 5 < files.length →
      isOkE (pressMulterArray files) = false) ∧
    (∀ r doc, pressCreate r = .ok doc →
      1 ≤ doc.images.length ∧ doc.images.length ≤ 5) ∧
    (∀ st cloud n title source category author readTime content altTexts
        newId doc,
      Ev.persistPress doc ∈ (uploadMultiplePress st cloud n title source
        category author readTime content altTexts newId).2 →
      1 ≤ doc.images.length ∧ doc.images.length ≤ 5) ∧
    (∀ st vo tho dvo hasThumbFile title description category date duration
        newId,
      uploadVideo st vo tho dvo true false hasThumbFile title description
        category date duration newId =
        (.error "Video file is required", [])) ∧
    (∀ files f, f ∈ files → f.fieldname ≠ "video" →
      f.fieldname ≠ "thumbnail" → isOkE (videoMulterFields files) = false) := by
  refine ⟨?_, ?_, ?_, ?_, ?_, ?_⟩
  · intro st cloud title source category author readTime content altTexts
      newId
    rfl
  · intro files hlen
    cases hm : pressMulterArray files with
    | error e => rfl
    | ok fs =>
      obtain ⟨-, hle⟩ := pressMulterArray_ok_shape files fs hm
      omega
  · exact pressCreate_images_bound
  · exact uploadMultiplePress_persist_bound
  · intro st vo tho dvo hasThumbFile title description category date
      duration newId
    rfl
  · intro files f hf hv ht
    cases hm : videoMulterFields files with
    | error e => rfl
    | ok fs =>
      exfalso
      unfold videoMulterFields at hm
      cases hgo : videoMulterGo files 0 0 0 with
      | error e2 =>
        rw [hgo] at hm
        cases hm
      | ok u =>
        cases u
        rcases videoMulterGo_ok_fields files 0 0 0 hgo f hf with h | h
        · exact hv h
        · exact ht h

/-- Witness for C8 at concrete inputs: zero press files rejected, six press
files rejected at the boundary, a demo record passing the persistence gate is
in bounds, the record the coordinator persists for a demo request is in
bounds, a video request without a video file rejected, and a stray `avatar`
field rejected at the video boundary. -/
theorem blob_count_policy_enforced_witness :
    uploadMultiplePress demoStore [] 0 "T" "S" "news" "A" "5 min" "C" []
      "p1" = (.error "No files uploaded", []) ∧
    isOkE (pressMulterArray (List.replicate 6 demoImageFile)) = false ∧
    (1 ≤ demoPress.images.length ∧ demoPress.images.length ≤ 5) ∧
    (1 ≤ demoCreatedPress.images.length ∧
      demoCreatedPress.images.length ≤ 5) ∧
    uploadVideo demoStore none none none true false false "T" "D" "events"
      "2024-01-01" "2:30" "v1" = (.error "Video file is required", []) ∧
    isOkE (videoMulterFields
      [{ fieldname := "avatar", mimetype := "image/png" }]) = false := by
  refine ⟨?_, ?_, ?_, ?_, ?_, ?_⟩
  · exact blob_count_policy_enforced.1 demoStore [] "T" "S" "news" "A"
      "5 min" "C" [] "p1"
  · exact blob_count_policy_enforced.2.1 (List.replicate 6 demoImageFile)
      (by decide)
  · exact blob_count_policy_enforced.2.2.1 demoPress demoPress (by decide)
  · exact blob_count_policy_enforced.2.2.2.1 demoStore [some res1] 1 "T" "S"
      "news" "A" "5 min" "C" [] "p1" demoCreatedPress (by decide)
  · exact blob_count_policy_enforced.2.2.2.2.1 demoStore none none none
      false "T" "D" "events" "2024-01-01" "2:30" "v1"
  · exact blob_count_policy_enforced.2.2.2.2.2
      [{ fieldname := "avatar", mimetype := "image/png" }]
      { fieldname := "avatar", mimetype := "image/png" }
      (by decide) (by decide) (by decide)

end PoliticianSite
